/-
Verification of the PlanoraAgent image-processing service core
(`image_service`: config.py, storage.py, metadata.py, models.py, core.py,
api.py) against its natural-language specification.

The Python source is shallowly embedded below.  Machine/filesystem effects
are made explicit:
  * the filesystem is passed in as data (`FileInfo`, `SaveEnv`),
  * Python exceptions become `Except String`,
  * pydantic validators become explicit checked constructors,
  * Python float arithmetic in `optimize_image` is modelled with `ℚ`
    (the counterexamples below use values on which IEEE doubles are exact),
  * `hashlib.md5(...).hexdigest()` is implemented bit-for-bit (RFC 1321)
    over `ℕ` with explicit `% 2^32`, and checked against the standard
    test vectors,
  * Pillow is modelled at the level the code uses it: an image is a mode,
    dimensions, a `transparency` info flag and an RGBA pixel view;
    `Image.paste` with an alpha mask uses Pillow's integer blend
    (`MULDIV255`), and pasting an image of another mode first converts it
    to the destination mode (dropping alpha), as Pillow does.
-/
import Mathlib

namespace ImageService

/-! ### Basic helpers: characters, hex, lowercase, digits -/

/-- Lowercase hexadecimal digit characters, as produced by `hexdigest()`. -/
def hexDigitChars : List Char := "0123456789abcdef".data

/-- The hexadecimal digit character for `n < 16`. -/
def hexDigit (n : ℕ) : Char := hexDigitChars.getD n '0'

/-- A character is a lowercase hex digit. -/
def isHexChar (c : Char) : Bool := hexDigitChars.contains c

/-- The two hex characters of one byte, high nibble first. -/
def byteHexChars (b : ℕ) : List Char := [hexDigit (b / 16), hexDigit (b % 16)]

/-- Concat-map over a list (used instead of core's bind to keep reduction
and simp behaviour fully under our control). -/
def listFlat (f : α → List β) : List α → List β
  | [] => []
  | a :: t => f a ++ listFlat f t

/-- Hex rendering of a byte list, in byte order (as `hexdigest()` does). -/
def hexChars (bytes : List ℕ) : List Char := listFlat byteHexChars bytes

/-- ASCII lowercase of one character; models Python's `str.lower` on the
ASCII range (all format strings in this service are ASCII). -/
def lowerChar (c : Char) : Char :=
  if 'A' ≤ c ∧ c ≤ 'Z' then Char.ofNat (c.toNat + 32) else c

/-- Models Python's `str.lower()`. -/
def pyLower (s : String) : String := String.mk (s.data.map lowerChar)

/-- ASCII uppercase of one character; models Python's `str.upper` on the
ASCII range. -/
def upperChar (c : Char) : Char :=
  if 'a' ≤ c ∧ c ≤ 'z' then Char.ofNat (c.toNat - 32) else c

/-- Models Python's `str.upper()`. -/
def pyUpper (s : String) : String := String.mk (s.data.map upperChar)

/-- ASCII whitespace, as stripped by Python's `str.strip()`. -/
def isSpaceChar (c : Char) : Bool :=
  c = ' ' ∨ c = '\t' ∨ c = '\n' ∨ c = '\r' ∨ c = '\x0b' ∨ c = '\x0c'

/-- `not v or not v.strip()` for a string `v`: true iff `v` is empty or
entirely whitespace. -/
def isBlank (s : String) : Bool := s.data.all isSpaceChar

/-- Decimal digit character for `n < 10`. -/
def digitChar (n : ℕ) : Char := "0123456789".data.getD n '0'

/-- Decimal digits of `n` (most significant first), fuel-based so that it
is structural and kernel-reducible. -/
def decDigitsAux : ℕ → ℕ → List Char
  | 0, _ => []
  | fuel + 1, n =>
    if n < 10 then [digitChar n]
    else decDigitsAux fuel (n / 10) ++ [digitChar (n % 10)]

/-- Models Python's `str(n)` / `f"{n}"` for a nonnegative integer. -/
def decRepr (n : ℕ) : String := String.mk (decDigitsAux (n + 1) n)

/-! ### UTF-8 encoding (Python's `str.encode()`) -/

/-- UTF-8 bytes of one code point. -/
def utf8Char (c : Char) : List ℕ :=
  let n := c.toNat
  if n < 0x80 then [n]
  else if n < 0x800 then [0xC0 + n / 64, 0x80 + n % 64]
  else if n < 0x10000 then
    [0xE0 + n / 4096, 0x80 + (n / 64) % 64, 0x80 + n % 64]
  else
    [0xF0 + n / 262144, 0x80 + (n / 4096) % 64, 0x80 + (n / 64) % 64,
     0x80 + n % 64]

/-- Models Python's `s.encode()` (UTF-8). -/
def utf8Bytes (s : String) : List ℕ := listFlat utf8Char s.data

/-! ### MD5 (RFC 1321), as used by `hashlib.md5(...).hexdigest()`

All words are natural numbers kept below `2 ^ 32` by explicit `% 2 ^ 32`.
-/

/-- 32-bit bitwise complement of a word `< 2 ^ 32`. -/
def not32 (x : ℕ) : ℕ := 4294967295 - x

/-- 32-bit left rotation (arithmetic form). -/
def rotl32 (x n : ℕ) : ℕ := (x % 2 ^ (32 - n)) * 2 ^ n + x / 2 ^ (32 - n)

/-- The MD5 sine-derived constant table `K`. -/
def md5K : List ℕ :=
  [0xd76aa478, 0xe8c7b756, 0x242070db, 0xc1bdceee,
   0xf57c0faf, 0x4787c62a, 0xa8304613, 0xfd469501,
   0x698098d8, 0x8b44f7af, 0xffff5bb1, 0x895cd7be,
   0x6b901122, 0xfd987193, 0xa679438e, 0x49b40821,
   0xf61e2562, 0xc040b340, 0x265e5a51, 0xe9b6c7aa,
   0xd62f105d, 0x02441453, 0xd8a1e681, 0xe7d3fbc8,
   0x21e1cde6, 0xc33707d6, 0xf4d50d87, 0x455a14ed,
   0xa9e3e905, 0xfcefa3f8, 0x676f02d9, 0x8d2a4c8a,
   0xfffa3942, 0x8771f681, 0x6d9d6122, 0xfde5380c,
   0xa4beea44, 0x4bdecfa9, 0xf6bb4b60, 0xbebfbc70,
   0x289b7ec6, 0xeaa127fa, 0xd4ef3085, 0x04881d05,
   0xd9d4d039, 0xe6db99e5, 0x1fa27cf8, 0xc4ac5665,
   0xf4292244, 0x432aff97, 0xab9423a7, 0xfc93a039,
   0x655b59c3, 0x8f0ccc92, 0xffeff47d, 0x85845dd1,
   0x6fa87e4f, 0xfe2ce6e0, 0xa3014314, 0x4e0811a1,
   0xf7537e82, 0xbd3af235, 0x2ad7d2bb, 0xeb86d391]

/-- The MD5 per-round left-rotation amounts `s`. -/
def md5S : List ℕ :=
  [7, 12, 17, 22, 7, 12, 17, 22, 7, 12, 17, 22, 7, 12, 17, 22,
   5,  9, 14, 20, 5,  9, 14, 20, 5,  9, 14, 20, 5,  9, 14, 20,
   4, 11, 16, 23, 4, 11, 16, 23, 4, 11, 16, 23, 4, 11, 16, 23,
   6, 10, 15, 21, 6, 10, 15, 21, 6, 10, 15, 21, 6, 10, 15, 21]

/-- Running MD5 state (four 32-bit words). -/
structure MDState where
  a : ℕ
  b : ℕ
  c : ℕ
  d : ℕ
deriving DecidableEq

/-- MD5 initial state. -/
def md5Init : MDState := ⟨0x67452301, 0xefcdab89, 0x98badcfe, 0x10325476⟩

/-- Little-endian 32-bit word number `j` of a 64-byte chunk. -/
def chunkWord (chunk : List ℕ) (j : ℕ) : ℕ :=
  chunk.getD (4 * j) 0 + 256 * chunk.getD (4 * j + 1) 0 +
    65536 * chunk.getD (4 * j + 2) 0 + 16777216 * chunk.getD (4 * j + 3) 0

/-- One of the 64 MD5 rounds. -/
def md5Round (chunk : List ℕ) (st : MDState) (i : ℕ) : MDState :=
  let fg : ℕ × ℕ :=
    if i < 16 then
      ((st.b.land st.c).lor ((not32 st.b).land st.d), i)
    else if i < 32 then
      ((st.d.land st.b).lor ((not32 st.d).land st.c), (5 * i + 1) % 16)
    else if i < 48 then
      ((st.b.xor st.c).xor st.d, (3 * i + 5) % 16)
    else
      (st.c.xor (st.b.lor (not32 st.d)), (7 * i) % 16)
  let f := (fg.1 + st.a + md5K.getD i 0 + chunkWord chunk fg.2) % 2 ^ 32
  ⟨st.d, (st.b + rotl32 f (md5S.getD i 0)) % 2 ^ 32, st.b, st.c⟩

/-- Process one 64-byte chunk. -/
def md5Chunk (st : MDState) (chunk : List ℕ) : MDState :=
  let r := (List.range 64).foldl (md5Round chunk) st
  ⟨(st.a + r.a) % 2 ^ 32, (st.b + r.b) % 2 ^ 32,
   (st.c + r.c) % 2 ^ 32, (st.d + r.d) % 2 ^ 32⟩

/-- Fold over successive 64-byte chunks (fuel = number of chunks). -/
def md5Chunks : ℕ → List ℕ → MDState → MDState
  | 0, _, st => st
  | fuel + 1, msg, st => md5Chunks fuel (msg.drop 64) (md5Chunk st (msg.take 64))

/-- MD5 padding: `0x80`, zeros to 56 mod 64, then the 64-bit little-endian
bit length. -/
def md5Pad (msg : List ℕ) : List ℕ :=
  let len := msg.length
  let zeros := (120 - (len + 1) % 64) % 64
  msg ++ [0x80] ++ List.replicate zeros 0 ++
    (List.range 8).map (fun i => 8 * len / 256 ^ i % 256)

/-- The four little-endian bytes of a 32-bit word. -/
def wordBytes (w : ℕ) : List ℕ :=
  [w % 256, w / 256 % 256, w / 65536 % 256, w / 16777216 % 256]

/-- The 16-byte MD5 digest of a byte message. -/
def md5Bytes (msg : List ℕ) : List ℕ :=
  let padded := md5Pad msg
  let st := md5Chunks (padded.length / 64) padded md5Init
  wordBytes st.a ++ wordBytes st.b ++ wordBytes st.c ++ wordBytes st.d

/-- The 32 hex characters of `hashlib.md5(msg).hexdigest()`. -/
def md5HexChars (msg : List ℕ) : List Char := hexChars (md5Bytes msg)

/-- `hashlib.md5(s.encode()).hexdigest()` as a string. -/
def md5HexOfString (s : String) : String := String.mk (md5HexChars (utf8Bytes s))

/-- RFC 1321 test vector: MD5 of the empty message. -/
theorem md5_vector_empty :
    md5HexOfString "" = "d41d8cd98f00b204e9800998ecf8427e" := by rfl

/-- RFC 1321 test vector: MD5 of "abc". -/
theorem md5_vector_abc :
    md5HexOfString "abc" = "900150983cd24fb0d6963f7d28e17f72" := by rfl

/-! ### Configuration (`config.py`, `ImageServiceConfig`) -/

/-- `ImageServiceConfig` (config.py): the fields the core pipeline reads. -/
structure ImageServiceConfig where
  max_width : ℕ
  max_height : ℕ
  jpeg_quality : ℕ
  webp_quality : ℕ
  thumbnail_size : ℕ
  supported_extensions : List String
  workspace_base : String
  image_store_folder : String
  thumbnail_folder : String
  enable_thumbnails : Bool
  enable_exif_extraction : Bool
  default_output_format : String

/-- The default configuration values of `ImageServiceConfig`. -/
def defaultConfig : ImageServiceConfig where
  max_width := 2048
  max_height := 2048
  jpeg_quality := 85
  webp_quality := 80
  thumbnail_size := 200
  supported_extensions := [".jpg", ".jpeg", ".png", ".webp", ".bmp", ".tiff", ".tif"]
  workspace_base := "workspace_X"
  image_store_folder := "PlanoraAgent/image_store"
  thumbnail_folder := "thumbnails"
  enable_thumbnails := true
  enable_exif_extraction := true
  default_output_format := "webp"

/-- Characters of `s` after the last `'/'` (the POSIX basename used by
`Path(p).name` and, with the extension logic below, `Path(p).suffix`). -/
def baseNameChars (s : String) : List Char :=
  ((s.data.reverse.takeWhile (fun c => c ≠ '/')).reverse)

/-- `Path(p).name`. -/
def pathName (s : String) : String := String.mk (baseNameChars s)

/-- `Path(p).suffix`: `"."` plus the part of the basename after its last
dot; empty when the basename has no dot, or the dot is its first or last
character (CPython: suffix is `name[i:]` iff `0 < i < len(name) - 1` for
`i = name.rfind('.')`). -/
def pathSuffix (s : String) : String :=
  let base := baseNameChars s
  let afterDot := base.reverse.takeWhile (fun c => c ≠ '.')
  if afterDot.length < base.length then
    let i := base.length - afterDot.length - 1
    if 0 < i ∧ i < base.length - 1 then String.mk ('.' :: afterDot.reverse)
    else ""
  else ""

/-- `Path(image_filename).stem`: the basename with its final suffix
removed (same last-dot rule as `pathSuffix`). -/
def pathStem (s : String) : String :=
  let base := baseNameChars s
  let afterDot := base.reverse.takeWhile (fun c => c ≠ '.')
  if afterDot.length < base.length then
    let i := base.length - afterDot.length - 1
    if 0 < i ∧ i < base.length - 1 then String.mk (base.take i)
    else String.mk base
  else String.mk base

/-- `ImageServiceConfig.is_supported_format`: the lowercased path suffix is
in the configured allow-list. -/
def is_supported_format (cfg : ImageServiceConfig) (file_path : String) : Bool :=
  cfg.supported_extensions.contains (pyLower (pathSuffix file_path))

/-- `get_workspace_path`: the caller's workspace if given, else the base. -/
def get_workspace_path (cfg : ImageServiceConfig) (workspace : Option String) : String :=
  match workspace with
  | some w => if w ≠ "" then w else cfg.workspace_base
  | none => cfg.workspace_base

/-- `get_image_store_path` (path join modelled as `"/"`-concatenation). -/
def get_image_store_path (cfg : ImageServiceConfig) (workspace : Option String) : String :=
  get_workspace_path cfg workspace ++ "/" ++ cfg.image_store_folder

/-- `get_thumbnail_path`. -/
def get_thumbnail_path (cfg : ImageServiceConfig) (workspace : Option String) : String :=
  get_image_store_path cfg workspace ++ "/" ++ cfg.thumbnail_folder

/-! ### The Pillow image model

The pipeline uses a decoded Pillow image through: `mode`, `size`
(`width`/`height`), `'transparency' in info`, `format`, `getexif()`,
`split()[-1]` (the alpha band), `convert(...)`, `Image.new`, `paste`,
`resize` and `thumbnail`.  We model an image as its mode, dimensions,
info flag, decode format, EXIF tag list, and its RGBA pixel view
(`convert('RGBA')`); for an `LA` image the RGBA view duplicates the gray
band into r, g, b, so dropping alpha from it is exactly Pillow's
`LA → RGB` conversion. -/

/-- Pillow color modes distinguished by the code; `other` stands for any
further non-RGB mode (e.g. CMYK, I, F), all of which the code treats
alike. -/
inductive PMode
  | RGB
  | RGBA
  | LA
  | P
  | L
  | other
deriving DecidableEq

/-- Render a mode as Pillow's `image.mode` string. -/
def PMode.str : PMode → String
  | .RGB => "RGB"
  | .RGBA => "RGBA"
  | .LA => "LA"
  | .P => "P"
  | .L => "L"
  | .other => "CMYK"

/-- One pixel in RGBA interpretation (channel values `0..255`). -/
structure Pixel where
  r : ℕ
  g : ℕ
  b : ℕ
  a : ℕ
deriving DecidableEq

/-- A decoded Pillow image, as the pipeline observes it. -/
structure PImage where
  mode : PMode
  width : ℕ
  height : ℕ
  /-- `'transparency' in image.info`. -/
  hasTransparencyInfo : Bool
  /-- `image.format`, `none` when Pillow reports no format. -/
  decodeFormat : Option String
  /-- EXIF tags after Pillow's tag-name mapping and byte decoding. -/
  exifTags : List (String × String)
  /-- RGBA pixel view (`image.convert('RGBA')`). -/
  px : ℕ → ℕ → Pixel

/-- Pillow's `MULDIV255` integer blend primitive
(`t = x * m + 128; ((t >> 8) + t) >> 8`). -/
def MULDIV255 (x m : ℕ) : ℕ := ((x * m + 128) / 256 + (x * m + 128)) / 256

/-- Pillow's per-channel blend of a source value over a background value
under a mask value `a` (Paste.c: `BLEND(mask, bg, src)`). -/
def pilBlend (bg src a : ℕ) : ℕ := MULDIV255 bg (255 - a) + MULDIV255 src a

/-- Composite one RGBA pixel over opaque white, using its alpha as the
paste mask. -/
def compositeOverWhite (p : Pixel) : Pixel :=
  ⟨pilBlend 255 p.r p.a, pilBlend 255 p.g p.a, pilBlend 255 p.b p.a, 255⟩

/-- `rgb_img.paste(image, mask=image.split()[-1])` onto a white RGB image
of the same size. -/
def pasteWithAlphaMask (img : PImage) : PImage :=
  { img with
    mode := .RGB
    hasTransparencyInfo := false
    px := fun x y => compositeOverWhite (img.px x y) }

/-- `rgb_img.paste(image)` onto a white RGB image of the same size: the
pasted image is first converted to RGB (alpha dropped), and the full-size
paste covers the background completely. -/
def pasteOpaque (img : PImage) : PImage :=
  { img with
    mode := .RGB
    hasTransparencyInfo := false
    px := fun x y => let p := img.px x y; ⟨p.r, p.g, p.b, 255⟩ }

/-- `image.convert('RGBA')` (promotes a palette image, consulting its
transparency key; in this model the RGBA view is already carried). -/
def convertRGBA (img : PImage) : PImage := { img with mode := .RGBA }

/-- `image.convert('RGB')`: alpha (if any) is dropped, not composited. -/
def convertRGB (img : PImage) : PImage :=
  { img with
    mode := .RGB
    hasTransparencyInfo := false
    px := fun x y => let p := img.px x y; ⟨p.r, p.g, p.b, 255⟩ }

/-- Python's `int(q)`: truncation toward zero. -/
def pyInt (q : ℚ) : ℤ := if 0 ≤ q then ⌊q⌋ else ⌈q⌉

/-- The first block of `ImageProcessor.optimize_image` (core.py):
"Convert to RGB if necessary". -/
def modeNormalize (image : PImage) : PImage :=
  if image.mode = .RGBA ∨ image.mode = .LA ∨ image.mode = .P then
    if image.mode = .RGBA then pasteWithAlphaMask image
    else if image.mode = .P ∧ image.hasTransparencyInfo then
      pasteWithAlphaMask (convertRGBA image)
    else pasteOpaque image
  else if image.mode ≠ .RGB then convertRGB image
  else image

/-- The second block of `ImageProcessor.optimize_image` (core.py):
"Resize if image is too large".  Float arithmetic is modelled with `ℚ`;
Lanczos resampling of the pixel grid is not modelled (only mode and
dimensions of the resized image are used downstream). -/
def sizeNormalize (cfg : ImageServiceConfig) (image : PImage) : PImage :=
  if image.width > cfg.max_width ∨ image.height > cfg.max_height then
    let ratio : ℚ :=
      min ((cfg.max_width : ℚ) / (image.width : ℚ))
        ((cfg.max_height : ℚ) / (image.height : ℚ))
    let new_width := (pyInt ((image.width : ℚ) * ratio)).toNat
    let new_height := (pyInt ((image.height : ℚ) * ratio)).toNat
    { image with width := new_width, height := new_height }
  else image

/-- `ImageProcessor.optimize_image` (core.py): mode normalization followed
by the bounded resize. -/
def optimize_image (cfg : ImageServiceConfig) (image : PImage) : PImage :=
  sizeNormalize cfg (modeNormalize image)

/-- Modelled from the spec: the size-normalization step as the spec words
it — "compute ratio = min(max_width/width, max_height/height), apply
uniformly to both dimensions, round to nearest integer".  Used only to
compare against `optimize_image`, which truncates. -/
def specResizeDims (maxW maxH w h : ℕ) : ℕ × ℕ :=
  if w > maxW ∨ h > maxH then
    let ratio : ℚ := min ((maxW : ℚ) / (w : ℚ)) ((maxH : ℚ) / (h : ℚ))
    ((round ((w : ℚ) * ratio)).toNat, (round ((h : ℚ) * ratio)).toNat)
  else (w, h)

/-- Modelled from the spec: mode normalization as the spec words it —
flatten "compositing via the alpha channel as a mask when one exists"
(so for `RGBA` and `LA`, which carry alpha, and for promoted transparent
palettes), convert any other non-RGB mode directly.  Used only to compare
against `optimize_image`, which does not mask `LA`. -/
def specFlatten (img : PImage) : PImage :=
  if img.mode = .RGBA ∨ img.mode = .LA then pasteWithAlphaMask img
  else if img.mode = .P then
    if img.hasTransparencyInfo then pasteWithAlphaMask (convertRGBA img)
    else pasteOpaque img
  else if img.mode ≠ .RGB then convertRGB img
  else img

/-! ### Filesystem view and storage (`storage.py`, `ImageStorage`) -/

/-- What the pipeline observes of the original file on disk. -/
structure FileInfo where
  /-- `os.path.exists(file_path)` / `Path(file_path).exists()`. -/
  fileExists : Bool
  /-- `Path(file_path).is_file()`. -/
  isFile : Bool
  /-- `os.path.getsize` / `st_size`, in bytes. -/
  fileSize : ℕ
  /-- `str(os.path.getmtime(file_path))` as it appears inside the f-string
  (only read when the file exists). -/
  mtime : String

/-- Outcome oracle for the filesystem writes a request performs. -/
structure SaveEnv where
  /-- Whether `image.save` of the main artifact succeeds. -/
  writeOk : Bool
  /-- `save_path.stat().st_size` measured after a successful write. -/
  savedBytes : ℕ
  /-- Whether the whole thumbnail block (copy, downsample, save) succeeds. -/
  thumbOk : Bool

/-- `ImageStorage.generate_filename`: MD5 of
`f"{original_path}_{os.path.getmtime(original_path) if os.path.exists(original_path) else ''}"`,
truncated to 12 hex characters, prefixed `img_`, with `.jpg` for "jpeg"
and `.<format.lower()>` otherwise. -/
def generate_filename (original_path : String) (fileExists : Bool)
    (mtime : String) (format : String) : String :=
  let hash_input := original_path ++ "_" ++ (if fileExists then mtime else "")
  let file_hash := (md5HexChars (utf8Bytes hash_input)).take 12
  let extension :=
    if pyLower format = "jpeg" then "jpg" else pyLower format
  String.mk ("img_".data ++ file_hash ++ '.' :: extension.data)

/-- `ImageStorage.generate_thumbnail_filename`. -/
def generate_thumbnail_filename (image_filename : String) : String :=
  "thumb_" ++ pathStem image_filename ++ ".jpg"

/-- The save format and quality `save_image` selects for a requested
output format (the `save_kwargs` block). -/
def saveFormatOf (cfg : ImageServiceConfig) (format : String) : String × Option ℕ :=
  if pyLower format = "jpeg" ∨ pyLower format = "jpg" then ("JPEG", some cfg.jpeg_quality)
  else if pyLower format = "webp" then ("WEBP", some cfg.webp_quality)
  else (pyUpper format, none)

/-- `ImageStorage.save_image`: generate the name, save under the image
store, return the saved path and its measured byte size; a write failure
propagates. -/
def save_image (cfg : ImageServiceConfig) (original_path : String)
    (fi : FileInfo) (workspace : Option String) (format : String)
    (env : SaveEnv) : Except String (String × ℕ) :=
  let filename := generate_filename original_path fi.fileExists fi.mtime format
  let save_path := get_image_store_path cfg workspace ++ "/" ++ filename
  if env.writeOk then Except.ok (save_path, env.savedBytes)
  else Except.error ("Failed to save image: " ++ save_path)

/-- `ImageStorage.create_thumbnail`: disabled thumbnails give `None`; any
exception inside the `try` block is caught and gives `None`; otherwise the
thumbnail path is returned.  (The downsample-and-flatten pixel work inside
the block is not observed by any caller, only the returned path is.) -/
def create_thumbnail (cfg : ImageServiceConfig) (original_filename : String)
    (workspace : Option String) (env : SaveEnv) : Option String :=
  if ¬cfg.enable_thumbnails then none
  else if env.thumbOk then
    some (get_thumbnail_path cfg workspace ++ "/" ++
      generate_thumbnail_filename original_filename)
  else none

/-! ### Data model (`models.py`) -/

/-- `DocumentStatus` (models.py). -/
inductive DocumentStatus
  | pending
  | processing
  | completed
  | failed
deriving DecidableEq

/-- `ImageMetadata` (models.py).  `width`, `height`, `file_size` are
Python ints, so `ℤ` here; the validators compare against zero. -/
structure ImageMetadata where
  width : ℤ
  height : ℤ
  mode : String
  format : String
  file_size : ℤ
  has_transparency : Bool
  exif : Option (List (String × String))

/-- Constructing an `ImageMetadata`: pydantic runs `validate_positive`
on `width`, `height` and `file_size` (in field order) and raises when a
value is `≤ 0`. -/
def mkImageMetadata (width height : ℤ) (mode format : String)
    (file_size : ℤ) (has_transparency : Bool)
    (exif : Option (List (String × String))) : Except String ImageMetadata :=
  if width ≤ 0 then Except.error "width must be greater than 0"
  else if height ≤ 0 then Except.error "height must be greater than 0"
  else if file_size ≤ 0 then Except.error "file_size must be greater than 0"
  else Except.ok ⟨width, height, mode, format, file_size, has_transparency, exif⟩

/-- `Page` (models.py). -/
structure Page where
  page_number : ℤ
  text_content : Option String
  image_path : String
  thumbnail_path : Option String
  metadata : ImageMetadata
  document_name : Option String
  document_id : Option String

/-- Constructing a `Page`: `validate_page_number` requires a positive
page number and `validate_image_path` a non-blank path. -/
def mkPage (page_number : ℤ) (text_content : Option String)
    (image_path : String) (thumbnail_path : Option String)
    (metadata : ImageMetadata) : Except String Page :=
  if page_number ≤ 0 then Except.error "page number must be greater than 0"
  else if isBlank image_path then Except.error "image path must not be empty"
  else Except.ok ⟨page_number, text_content, image_path, thumbnail_path,
    metadata, none, none⟩

/-- `Document` (models.py).  The free-form metadata dict is modelled as an
association list with stringified values. -/
structure Document where
  id : String
  title : String
  file_path : String
  num_pages : ℤ
  pages : List Page
  status : DocumentStatus
  metadata : List (String × String)

/-- Constructing a `Document`: pydantic validates `title` (non-blank),
`num_pages` (positive) and `pages` (`len(pages) == num_pages`; the check
is skipped when `num_pages` itself failed, but then construction has
already failed). -/
def mkDocument (id title file_path : String) (num_pages : ℤ)
    (pages : List Page) (status : DocumentStatus)
    (metadata : List (String × String)) : Except String Document :=
  if isBlank title then Except.error "title must not be empty"
  else if num_pages ≤ 0 then Except.error "num_pages must be greater than 0"
  else if (pages.length : ℤ) ≠ num_pages then
    Except.error "pages count does not match num_pages"
  else Except.ok ⟨id, title, file_path, num_pages, pages, status, metadata⟩

/-- `Document.update_page_references`: stamp every page with the
document's title and id. -/
def update_page_references (d : Document) : Document :=
  { d with pages := d.pages.map fun p =>
      { p with document_name := some d.title, document_id := some d.id } }

/-! ### Metadata extraction (`metadata.py`, `MetadataExtractor`) -/

/-- The dictionary `extract_basic_metadata` returns on its happy path
(the fields `create_image_metadata` reads). -/
structure BasicMeta where
  width : ℕ
  height : ℕ
  mode : String
  format : String
  file_size : ℕ
  has_transparency : Bool

/-- `MetadataExtractor._check_transparency`. -/
def check_transparency (img : PImage) : Bool :=
  if img.mode = .RGBA ∨ img.mode = .LA then true
  else if img.mode = .P then img.hasTransparencyInfo
  else if img.hasTransparencyInfo then true
  else false

/-- `MetadataExtractor.extract_basic_metadata`: reads size, mode, format
and transparency from the decoded image and the file size from disk
(zero when the path does not exist).  Its own `try/except` never fires in
this model (all reads are total), so the zeroed fallback dict is not
needed here. -/
def extract_basic_metadata (img : PImage) (fi : FileInfo) : BasicMeta where
  width := img.width
  height := img.height
  mode := img.mode.str
  format := img.decodeFormat.getD "Unknown"
  file_size := if fi.fileExists then fi.fileSize else 0
  has_transparency := check_transparency img

/-- The EXIF allow-list of `extract_exif_data`. -/
def usefulExifFields : List String :=
  ["Make", "Model", "DateTime", "DateTimeOriginal",
   "ExifImageWidth", "ExifImageHeight", "Orientation",
   "XResolution", "YResolution", "ResolutionUnit",
   "Software", "ColorSpace", "WhiteBalance"]

/-- `MetadataExtractor.extract_exif_data`: `None` when extraction is
disabled or no tags survive the length cut and the allow-list. -/
def extract_exif_data (cfg : ImageServiceConfig) (img : PImage) :
    Option (List (String × String)) :=
  if ¬cfg.enable_exif_extraction then none
  else
    let kept := (img.exifTags.filter fun kv => kv.2.length ≤ 200).filter
      fun kv => usefulExifFields.contains kv.1
    if kept = [] then none else some kept

/-- `MetadataExtractor.create_image_metadata`: build the validated
`ImageMetadata` from the extracted fields (width/height replaced by the
processed size when given); if that raises, the `except` block builds the
"minimal" fallback value with `file_size=0` — whose own validation error
propagates out uncaught. -/
def create_image_metadata (cfg : ImageServiceConfig) (img : PImage)
    (fi : FileInfo) (processed_size : Option (ℕ × ℕ)) :
    Except String ImageMetadata :=
  let basic := extract_basic_metadata img fi
  let exif := extract_exif_data cfg img
  let wh : ℕ × ℕ :=
    match processed_size with
    | some p => p
    | none => (basic.width, basic.height)
  match mkImageMetadata wh.1 wh.2 basic.mode basic.format basic.file_size
    basic.has_transparency exif with
  | Except.ok m => Except.ok m
  | Except.error _ =>
    mkImageMetadata img.width img.height img.mode.str
      (img.decodeFormat.getD "Unknown") 0 false none

/-! ### Orchestration (`core.py`, `ImageProcessor`) -/

/-- Decimal rendering of a Python int. -/
def intRepr (n : ℤ) : String :=
  if n < 0 then "-" ++ decRepr (-n).toNat else decRepr n.toNat

/-- `ImageProcessor.validate_file`: empty path, missing file, non-file,
zero size and unsupported extension each raise, in this order. -/
def validate_file (cfg : ImageServiceConfig) (file_path : String)
    (fi : FileInfo) : Except String Unit :=
  if file_path = "" then Except.error "File path is required"
  else if ¬fi.fileExists then Except.error ("File not found: " ++ file_path)
  else if ¬fi.isFile then Except.error ("Path is not a file: " ++ file_path)
  else if fi.fileSize = 0 then Except.error ("File is empty: " ++ file_path)
  else if ¬is_supported_format cfg file_path then
    Except.error ("Unsupported format: " ++ pathSuffix file_path)
  else Except.ok ()

/-- `output_format or self.config.default_output_format` (Python `or`:
`None` and `""` both fall back to the default). -/
def resolveFormat (cfg : ImageServiceConfig) (output_format : Option String) : String :=
  match output_format with
  | some f => if f ≠ "" then f else cfg.default_output_format
  | none => cfg.default_output_format

/-- `ImageProcessor.process_image_sync`: load, optimize, save, thumbnail
(best effort), extract metadata, patch in the saved byte size, build the
`Page`.  `decode` is the outcome of `load_image` (already an
`ImageProcessingError` on failure); any error raised inside the `try` is
re-wrapped as `Image processing failed: ...`. -/
def process_image_sync (cfg : ImageServiceConfig) (file_path : String)
    (workspace : Option String) (output_format : Option String)
    (fi : FileInfo) (decode : Except String PImage) (env : SaveEnv) :
    Except String (Page × String × Option String) :=
  let fmt := resolveFormat cfg output_format
  let attempt : Except String (Page × String × Option String) := do
    let original_image ← decode
    let optimized := optimize_image cfg original_image
    let final_size := (optimized.width, optimized.height)
    let (saved_path, file_size) ← save_image cfg file_path fi workspace fmt env
    let thumbnail_path :=
      if cfg.enable_thumbnails then
        create_thumbnail cfg (pathName saved_path) workspace env
      else none
    let metadata ← create_image_metadata cfg original_image fi (some final_size)
    let metadata := { metadata with file_size := (file_size : ℤ) }
    let page ← mkPage 1 none saved_path thumbnail_path metadata
    pure (page, saved_path, thumbnail_path)
  match attempt with
  | Except.ok r => Except.ok r
  | Except.error e => Except.error ("Image processing failed: " ++ e)

/-- The document id `create_document` passes to the `Document`
constructor: `document_id or f"doc_img_{int(time.time())}"`. -/
def documentIdOr (document_id : Option String) (now : ℕ) : String :=
  match document_id with
  | some s => if s ≠ "" then s else "doc_img_" ++ decRepr now
  | none => "doc_img_" ++ decRepr now

/-- `ImageProcessor.create_document`: derive the title from the original
file name, build the metadata dict, construct the `Document` with
`num_pages=1`, `pages=[page]`, status `completed`, and stamp the page
back-references.  `now` is `int(time.time())` and `nowStr` the
`time.strftime` timestamp. -/
def create_document (page : Page) (original_file_path : String)
    (document_id : Option String) (now : ℕ) (nowStr : String) :
    Except String Document :=
  let title := pathName original_file_path
  let docmeta : List (String × String) :=
    [("original_file", original_file_path),
     ("processor", "ImageProcessor"),
     ("created_at", nowStr),
     ("file_size", intRepr page.metadata.file_size),
     ("image_format", page.metadata.format),
     ("dimensions", intRepr page.metadata.width ++ "x" ++ intRepr page.metadata.height)]
  match mkDocument (documentIdOr document_id now) title page.image_path 1
    [page] DocumentStatus.completed docmeta with
  | Except.ok document => Except.ok (update_page_references document)
  | Except.error e => Except.error ("Document creation failed: " ++ e)

/-- `ImageProcessor.process_sync`: validate, ensure directories (pure
filesystem effect, not observable here), run the pipeline, assemble the
document.  `ImageProcessingError`s propagate unchanged. -/
def process_sync (cfg : ImageServiceConfig) (file_path : String)
    (workspace : Option String) (output_format : Option String)
    (document_id : Option String) (fi : FileInfo)
    (decode : Except String PImage) (env : SaveEnv) (now : ℕ)
    (nowStr : String) : Except String Document := do
  let _ ← validate_file cfg file_path fi
  let (page, _saved_path, _thumbnail_path) ←
    process_image_sync cfg file_path workspace output_format fi decode env
  create_document page file_path document_id now nowStr

/-! ### API layer (`api.py`, `process_image` endpoint) -/

/-- The error surface of the `process_image` endpoint. -/
inductive ApiError
  | badRequest (msg : String)
  | unprocessable (msg : String)
  | internalError (msg : String)
deriving DecidableEq

/-- The `/process_image/` handler up to invoking the processor, which is
passed in as `pipeline` (everything after the temp-file write).  Checks
run in source order: missing filename → 400; a truthy `file.size` reaches
`config.max_file_size`, a field `ImageServiceConfig` does not declare, so
the `AttributeError` surfaces as a 500; an output format outside
`["webp", "jpeg"]` → 400 ("jpg" included); only then does processing
start. -/
def api_process_image {α : Type} (pipeline : Unit → Except String α)
    (filename : String) (upload_size : Option ℕ) (output_format : String) :
    Except ApiError α :=
  if filename = "" then Except.error (ApiError.badRequest "No file provided")
  else if (match upload_size with | some n => decide (n ≠ 0) | none => false) then
    Except.error (ApiError.internalError
      "Internal server error: AttributeError: max_file_size")
  else if ¬(output_format = "webp" ∨ output_format = "jpeg") then
    Except.error (ApiError.badRequest
      "Invalid output format. Supported: webp, jpeg")
  else
    match pipeline () with
    | Except.ok d => Except.ok d
    | Except.error e => Except.error (ApiError.unprocessable e)

/-! ### Concrete request data reused by witnesses and counterexamples -/

/-- An opaque 8192×4103 RGB image (decoded from a JPEG). -/
def wideImage : PImage where
  mode := .RGB
  width := 8192
  height := 4103
  hasTransparencyInfo := false
  decodeFormat := some "JPEG"
  exifTags := []
  px := fun _ _ => ⟨10, 20, 30, 255⟩

/-- A 1×1 `LA` image whose only pixel is fully transparent black
(RGBA view `(0,0,0,0)`: the gray band is 0 and so are r, g, b). -/
def laImage : PImage where
  mode := .LA
  width := 1
  height := 1
  hasTransparencyInfo := false
  decodeFormat := some "PNG"
  exifTags := []
  px := fun _ _ => ⟨0, 0, 0, 0⟩

/-- A 2×2 RGBA image whose pixel at the origin is fully transparent red
and elsewhere fully opaque red. -/
def rgbaImage : PImage where
  mode := .RGBA
  width := 2
  height := 2
  hasTransparencyInfo := false
  decodeFormat := some "PNG"
  exifTags := []
  px := fun x y => if x = 0 ∧ y = 0 then ⟨200, 0, 0, 0⟩ else ⟨200, 0, 0, 255⟩

/-- A small in-bounds RGB image. -/
def smallImage : PImage where
  mode := .RGB
  width := 500
  height := 400
  hasTransparencyInfo := false
  decodeFormat := some "PNG"
  exifTags := []
  px := fun _ _ => ⟨1, 2, 3, 255⟩

/-- A healthy on-disk original file. -/
def okFile : FileInfo where
  fileExists := true
  isFile := true
  fileSize := 1234
  mtime := "1700000000.0"

/-- A write environment where every write succeeds. -/
def okSave : SaveEnv where
  writeOk := true
  savedBytes := 777
  thumbOk := true

/-- An `ImageMetadata` literal used to build witness pages. -/
def witnessMeta : ImageMetadata := ⟨500, 400, "RGB", "PNG", 777, false, none⟩

/-- A `Page` literal used to exercise `create_document` in witnesses. -/
def witnessPage : Page :=
  ⟨1, none, "workspace_X/PlanoraAgent/image_store/img_f76ecf6a6bc2.webp",
    none, witnessMeta, none, none⟩

/-! ### Helper lemmas about `optimize_image` -/

/-- Mode normalization never changes the width. -/
theorem modeNormalize_width (img : PImage) :
    (modeNormalize img).width = img.width := by
  rcases img with ⟨m, w, h, t, f, e, px⟩
  cases m <;> cases t <;> rfl

/-- Mode normalization never changes the height. -/
theorem modeNormalize_height (img : PImage) :
    (modeNormalize img).height = img.height := by
  rcases img with ⟨m, w, h, t, f, e, px⟩
  cases m <;> cases t <;> rfl

/-- Mode normalization always outputs an `RGB`-mode image. -/
theorem modeNormalize_mode (img : PImage) :
    (modeNormalize img).mode = PMode.RGB := by
  rcases img with ⟨m, w, h, t, f, e, px⟩
  cases m <;> cases t <;> rfl

/-- Within bounds, the resize branch is skipped entirely. -/
theorem sizeNormalize_within (cfg : ImageServiceConfig) (img : PImage)
    (hW : img.width ≤ cfg.max_width) (hH : img.height ≤ cfg.max_height) :
    sizeNormalize cfg img = img := by
  simp only [sizeNormalize]
  rw [if_neg (by omega)]

/-- Within the configured bounds the whole of `optimize_image` leaves the
dimensions unchanged. -/
theorem optimize_dims_within (cfg : ImageServiceConfig) (img : PImage)
    (hW : img.width ≤ cfg.max_width) (hH : img.height ≤ cfg.max_height) :
    (optimize_image cfg img).width = img.width ∧
      (optimize_image cfg img).height = img.height := by
  have h := sizeNormalize_within cfg (modeNormalize img)
    (by rw [modeNormalize_width]; exact hW)
    (by rw [modeNormalize_height]; exact hH)
  rw [optimize_image, h, modeNormalize_width, modeNormalize_height]
  exact ⟨rfl, rfl⟩

/-- `optimize_image` always outputs a three-channel (`RGB`) image. -/
theorem optimize_mode_rgb (cfg : ImageServiceConfig) (img : PImage) :
    (optimize_image cfg img).mode = PMode.RGB := by
  rw [optimize_image, sizeNormalize]
  split
  · exact modeNormalize_mode img
  · exact modeNormalize_mode img

/-- Pillow's blend is the identity under a fully opaque mask
(channel values at most 255). -/
theorem pilBlend_full (bg s : ℕ) (hs : s ≤ 255) : pilBlend bg s 255 = s := by
  simp only [pilBlend, MULDIV255]
  omega

/-- Pillow's blend returns the background under a fully transparent mask
(background at most 255). -/
theorem pilBlend_zero (bg s : ℕ) (hbg : bg ≤ 255) : pilBlend bg s 0 = bg := by
  simp only [pilBlend, MULDIV255]
  omega

/-- Truncating `d * min (maxW/w) (maxH/h)` stays below the bound the
`min` argument `bound/d` protects (`d` is the dimension the ratio term
divides by). -/
theorem pyInt_ratio_le (d bound : ℕ) (r : ℚ) (hd : 0 < d) (hr0 : 0 ≤ r)
    (hr : r ≤ (bound : ℚ) / (d : ℚ)) :
    (pyInt ((d : ℚ) * r)).toNat ≤ bound := by
  have hq : (d : ℚ) * r ≤ (bound : ℚ) := by
    calc (d : ℚ) * r ≤ (d : ℚ) * ((bound : ℚ) / (d : ℚ)) := by
          apply mul_le_mul_of_nonneg_left hr (by positivity)
      _ = (bound : ℚ) := by
          field_simp
  have hq0 : (0 : ℚ) ≤ (d : ℚ) * r := by positivity
  rw [pyInt, if_pos hq0, Int.toNat_le]
  calc ⌊(d : ℚ) * r⌋ ≤ ⌊(bound : ℚ)⌋ := Int.floor_le_floor hq
    _ = (bound : ℤ) := Int.floor_natCast bound

/-! ### Helper lemmas about the MD5 digest and hex rendering -/

/-- The four little-endian bytes of a word are bytes. -/
theorem wordBytes_lt (w : ℕ) : ∀ b ∈ wordBytes w, b < 256 := by
  intro b hb
  simp only [wordBytes, List.mem_cons, List.not_mem_nil, or_false] at hb
  rcases hb with h | h | h | h <;> subst h <;> omega

/-- Every entry of an MD5 digest is a byte. -/
theorem md5Bytes_lt (m : List ℕ) : ∀ b ∈ md5Bytes m, b < 256 := by
  intro b hb
  simp only [md5Bytes, List.mem_append] at hb
  rcases hb with ((h | h) | h) | h <;> exact wordBytes_lt _ b h

/-- An MD5 digest has 16 bytes. -/
theorem md5Bytes_length (m : List ℕ) : (md5Bytes m).length = 16 := by
  simp [md5Bytes, wordBytes]

/-- Hex rendering yields two characters per byte. -/
theorem hexChars_length (l : List ℕ) : (hexChars l).length = 2 * l.length := by
  induction l with
  | nil => rfl
  | cons b t ih =>
    show (byteHexChars b ++ hexChars t).length = 2 * (t.length + 1)
    rw [List.length_append, ih]
    have h2 : (byteHexChars b).length = 2 := rfl
    omega

/-- Taking `2 * k` hex characters is rendering the first `k` bytes. -/
theorem hexChars_take (l : List ℕ) (k : ℕ) :
    (hexChars l).take (2 * k) = hexChars (l.take k) := by
  induction l generalizing k with
  | nil => simp [hexChars, listFlat]
  | cons b t ih =>
    cases k with
    | zero => simp [hexChars, listFlat]
    | succ k =>
      show (byteHexChars b ++ hexChars t).take (2 * (k + 1)) =
        byteHexChars b ++ hexChars (t.take k)
      have h2 : 2 * (k + 1) = 2 + 2 * k := by ring
      rw [h2, List.take_append_eq_append_take,
        List.take_of_length_le (by simp [byteHexChars])]
      have h3 : 2 + 2 * k - (byteHexChars b).length = 2 * k := by
        simp [byteHexChars]
      rw [h3, ih]

/-- Hex rendering of bytes produces only hex characters. -/
theorem hexChars_mem (l : List ℕ) (hl : ∀ b ∈ l, b < 256) :
    ∀ c ∈ hexChars l, isHexChar c = true := by
  induction l with
  | nil => simp [hexChars, listFlat]
  | cons b t ih =>
    intro c hc
    simp only [hexChars, listFlat, List.mem_append] at hc
    rcases hc with h | h
    · have hb := hl b (List.mem_cons_self b t)
      have h16 : ∀ n < 16, isHexChar (hexDigit n) = true := by decide
      simp only [byteHexChars, List.mem_cons, List.not_mem_nil, or_false] at h
      rcases h with h | h <;> subst h
      · exact h16 _ (by omega)
      · exact h16 _ (by omega)
    · exact ih (fun x hx => hl x (List.mem_cons_of_mem b hx)) c h

/-- A byte list read as a little-endian positional number. -/
def bytesToNat : List ℕ → ℕ
  | [] => 0
  | b :: t => b + 256 * bytesToNat t

/-- A list of bytes encodes a number below `256 ^ length`. -/
theorem bytesToNat_lt (l : List ℕ) (hl : ∀ b ∈ l, b < 256) :
    bytesToNat l < 256 ^ l.length := by
  induction l with
  | nil => simp [bytesToNat]
  | cons b t ih =>
    have hb := hl b (List.mem_cons_self b t)
    have ht := ih (fun x hx => hl x (List.mem_cons_of_mem b hx))
    simp only [bytesToNat, List.length_cons, pow_succ]
    omega

/-- Positional encoding is injective on byte lists of equal length. -/
theorem bytesToNat_inj (l₁ : List ℕ) : ∀ (l₂ : List ℕ),
    l₁.length = l₂.length → (∀ b ∈ l₁, b < 256) → (∀ b ∈ l₂, b < 256) →
    bytesToNat l₁ = bytesToNat l₂ → l₁ = l₂ := by
  induction l₁ with
  | nil =>
    intro l₂ hlen _ _ _
    cases l₂ with
    | nil => rfl
    | cons => simp at hlen
  | cons b t ih =>
    intro l₂ hlen h₁ h₂ h
    cases l₂ with
    | nil => simp at hlen
    | cons b' t' =>
      simp only [bytesToNat] at h
      have hb := h₁ b (List.mem_cons_self b t)
      have hb' := h₂ b' (List.mem_cons_self b' t')
      have hbe : b = b' ∧ bytesToNat t = bytesToNat t' := by omega
      rw [hbe.1, ih t' (by simpa using hlen)
        (fun x hx => h₁ x (List.mem_cons_of_mem b hx))
        (fun x hx => h₂ x (List.mem_cons_of_mem b' hx)) hbe.2]

/-- The well-formed shape of every `generate_filename` result: `img_`,
a 12-character lowercase-hex core, a dot, the format-derived extension. -/
theorem generate_filename_shape (p : String) (ex : Bool) (mt fmt : String) :
    ∃ core : List Char,
      (generate_filename p ex mt fmt).data =
        "img_".data ++ core ++ '.' ::
          (if pyLower fmt = "jpeg" then "jpg" else pyLower fmt).data ∧
      core.length = 12 ∧ ∀ c ∈ core, isHexChar c = true := by
  refine ⟨(md5HexChars (utf8Bytes (p ++ "_" ++ (if ex then mt else "")))).take 12,
    rfl, ?_, ?_⟩
  · rw [List.length_take, md5HexChars, hexChars_length, md5Bytes_length]
    omega
  · intro c hc
    exact hexChars_mem _ (md5Bytes_lt _) c (List.mem_of_mem_take hc)

/-- The 12-character core of a filename has length 12. -/
theorem filename_core_length (msg : List ℕ) :
    ((md5HexChars msg).take 12).length = 12 := by
  rw [List.length_take, md5HexChars, hexChars_length, md5Bytes_length]
  omega

/-! ### Claim C4 — artifact naming -/

/-- C4 counterexample (proof of the claim's negation): the name's hash is
truncated to 12 hex characters — 48 bits — so by pigeonhole two distinct
original paths (same missing-mtime state, same requested format) must
share a filename; "a change of path … produces a different name" is
false. -/
theorem c4_collision_counterexample :
    ∃ p q : String, p ≠ q ∧
      generate_filename p false "" "webp" = generate_filename q false "" "webp" := by
  have hT6 : ∀ n : ℕ,
      ((md5Bytes (utf8Bytes (String.mk (List.replicate n 'a') ++ "_" ++ ""))).take 6).length = 6 := by
    intro n
    rw [List.length_take, md5Bytes_length]
    omega
  have hTlt : ∀ (n : ℕ) b, b ∈ (md5Bytes (utf8Bytes (String.mk (List.replicate n 'a') ++ "_" ++ ""))).take 6 → b < 256 :=
    fun n b hb => md5Bytes_lt _ b (List.mem_of_mem_take hb)
  have hbound : ∀ n : ℕ,
      bytesToNat ((md5Bytes (utf8Bytes (String.mk (List.replicate n 'a') ++ "_" ++ ""))).take 6) < 256 ^ 6 := by
    intro n
    have := bytesToNat_lt _ (fun b hb => hTlt n b hb)
    rwa [hT6 n] at this
  obtain ⟨n₁, n₂, hne, heq⟩ := Finite.exists_ne_map_eq_of_infinite
    (fun n : ℕ => (⟨bytesToNat ((md5Bytes (utf8Bytes (String.mk (List.replicate n 'a') ++ "_" ++ ""))).take 6), hbound n⟩ : Fin (256 ^ 6)))
  have hval := congrArg Fin.val heq
  have hTeq := bytesToNat_inj _ _ (by rw [hT6, hT6])
    (fun b hb => hTlt n₁ b hb) (fun b hb => hTlt n₂ b hb) hval
  refine ⟨String.mk (List.replicate n₁ 'a'), String.mk (List.replicate n₂ 'a'), ?_, ?_⟩
  · intro h
    apply hne
    have := congrArg (fun s : String => s.data.length) h
    simpa using this
  · have hname : (md5HexChars (utf8Bytes (String.mk (List.replicate n₁ 'a') ++ "_" ++ ""))).take 12 =
        (md5HexChars (utf8Bytes (String.mk (List.replicate n₂ 'a') ++ "_" ++ ""))).take 12 := by
      have h12 : (12 : ℕ) = 2 * 6 := rfl
      rw [h12, md5HexChars, md5HexChars, hexChars_take, hexChars_take, hTeq]
    show String.mk _ = String.mk _
    rw [show (if (false : Bool) then "" else "") = "" from rfl] at *
    exact congrArg String.mk (by rw [hname])

/-- C4 as amended: every generated name is `img_` + 12 lowercase-hex
characters + `.jpg` when the requested format lowercases to "jpeg" and
`.` + the lowercased format otherwise; the name is a pure function of
(path, mtime-state, format), so two calls on the same unmodified file
agree; and any two inputs whose truncated digests differ get different
names (a change of path or mtime changes the name except when the
48-bit truncated MD5 digests collide, which pigeonhole forces for some
pairs). -/
theorem c4_filename_naming (p mt fmt : String) (ex : Bool) :
    (∃ core : List Char,
      (generate_filename p ex mt fmt).data =
        "img_".data ++ core ++ '.' ::
          (if pyLower fmt = "jpeg" then "jpg" else pyLower fmt).data ∧
      core.length = 12 ∧ ∀ c ∈ core, isHexChar c = true) ∧
    (∀ (p' mt' : String) (ex' : Bool),
      (md5HexChars (utf8Bytes (p ++ "_" ++ (if ex then mt else "")))).take 12 ≠
        (md5HexChars (utf8Bytes (p' ++ "_" ++ (if ex' then mt' else "")))).take 12 →
      generate_filename p ex mt fmt ≠ generate_filename p' ex' mt' fmt) := by
  refine ⟨generate_filename_shape p ex mt fmt, ?_⟩
  intro p' mt' ex' hdig hcontra
  apply hdig
  have hdata := congrArg String.data hcontra
  have h1 : "img_".data ++
      ((md5HexChars (utf8Bytes (p ++ "_" ++ (if ex then mt else "")))).take 12 ++
        '.' :: (if pyLower fmt = "jpeg" then "jpg" else pyLower fmt).data) =
      "img_".data ++
      ((md5HexChars (utf8Bytes (p' ++ "_" ++ (if ex' then mt' else "")))).take 12 ++
        '.' :: (if pyLower fmt = "jpeg" then "jpg" else pyLower fmt).data) := by
    simpa [generate_filename] using hdata
  have h2 := List.append_cancel_left h1
  exact (List.append_inj h2 (by rw [filename_core_length, filename_core_length])).1

set_option maxRecDepth 100000 in
/-- Witness for the amended C4: the same path saved with two different
modification times has different truncated digests, hence different
artifact names. -/
theorem c4_filename_naming_witness :
    (md5HexChars (utf8Bytes ("a.png" ++ "_" ++ (if (true : Bool) then "1.0" else "")))).take 12 ≠
      (md5HexChars (utf8Bytes ("a.png" ++ "_" ++ (if (true : Bool) then "2.0" else "")))).take 12 ∧
    generate_filename "a.png" true "1.0" "webp" ≠
      generate_filename "a.png" true "2.0" "webp" := by
  have h : (md5HexChars (utf8Bytes ("a.png" ++ "_" ++ (if (true : Bool) then "1.0" else "")))).take 12 ≠
      (md5HexChars (utf8Bytes ("a.png" ++ "_" ++ (if (true : Bool) then "2.0" else "")))).take 12 := by
    decide
  exact ⟨h, (c4_filename_naming "a.png" "1.0" "webp" true).2 "a.png" "2.0" true h⟩

/-! ### Claim C10 — `generate_filename` on nonexistent paths -/

/-- C10: for a path that does not exist, `generate_filename` is total and
hashes the path with an empty modification-time component: the result
does not depend on any mtime value at all, and is still well-formed —
`img_`, 12 lowercase-hex characters, a dot and the format-derived
extension. -/
theorem c10_filename_nonexistent (p fmt mt mt' : String) :
    generate_filename p false mt fmt = generate_filename p false mt' fmt ∧
    (∃ core : List Char,
      (generate_filename p false mt fmt).data =
        "img_".data ++ core ++ '.' ::
          (if pyLower fmt = "jpeg" then "jpg" else pyLower fmt).data ∧
      core.length = 12 ∧ ∀ c ∈ core, isHexChar c = true) :=
  ⟨rfl, generate_filename_shape p false mt fmt⟩

/-! ### Claim C7 — no upscaling -/

/-- C7: for every decoded image with `width ≤ max_width` and
`height ≤ max_height`, `optimize_image` is the identity on dimensions:
the normalized output's width and height equal the input's exactly. -/
theorem c7_no_upscale (cfg : ImageServiceConfig) (img : PImage)
    (hW : img.width ≤ cfg.max_width) (hH : img.height ≤ cfg.max_height) :
    (optimize_image cfg img).width = img.width ∧
      (optimize_image cfg img).height = img.height :=
  optimize_dims_within cfg img hW hH

/-- Witness for C7 on a concrete 500×400 image under the default
2048×2048 bounds. -/
theorem c7_no_upscale_witness :
    smallImage.width ≤ defaultConfig.max_width ∧
    smallImage.height ≤ defaultConfig.max_height ∧
    ((optimize_image defaultConfig smallImage).width = smallImage.width ∧
      (optimize_image defaultConfig smallImage).height = smallImage.height) :=
  ⟨by decide, by decide,
    c7_no_upscale defaultConfig smallImage (by decide) (by decide)⟩

/-! ### Claim C2 — downscaling: the code truncates, the claim rounds -/

/-- C2 counterexample: on an 8192×4103 image under the default 2048×2048
bounds the ratio is exactly 1/4 (all involved doubles are exact), the
code computes `int(4103 * 0.25) = 1025`, while rounding
`4103 * 0.25 = 1025.75` to the nearest integer as the claim states gives
1026. -/
theorem c2_rounding_counterexample :
    (optimize_image defaultConfig wideImage).width = 2048 ∧
    (optimize_image defaultConfig wideImage).height = 1025 ∧
    specResizeDims defaultConfig.max_width defaultConfig.max_height
      wideImage.width wideImage.height = (2048, 1026) ∧
    (optimize_image defaultConfig wideImage).height ≠
      (specResizeDims defaultConfig.max_width defaultConfig.max_height
        wideImage.width wideImage.height).2 := by
  have hmin : min ((2048 : ℚ) / 8192) ((2048 : ℚ) / 4103) = 1 / 4 := by
    rw [min_eq_left (by norm_num)]
    norm_num
  have hcode : optimize_image defaultConfig wideImage =
      { wideImage with width := 2048, height := 1025 } := by
    rw [optimize_image]
    show sizeNormalize defaultConfig wideImage = _
    rw [sizeNormalize, if_pos (by decide)]
    have hw : (wideImage.width : ℚ) = 8192 := by norm_num [wideImage]
    have hh : (wideImage.height : ℚ) = 4103 := by norm_num [wideImage]
    simp only [defaultConfig, hw, hh, hmin, pyInt]
    norm_num
    decide
  have hspec : specResizeDims defaultConfig.max_width defaultConfig.max_height
      wideImage.width wideImage.height = (2048, 1026) := by
    rw [specResizeDims, if_pos (by decide)]
    have hw : (wideImage.width : ℚ) = 8192 := by norm_num [wideImage]
    have hh : (wideImage.height : ℚ) = 4103 := by norm_num [wideImage]
    simp only [defaultConfig, hw, hh, hmin]
    norm_num [round_eq]
    decide
  refine ⟨by rw [hcode], by rw [hcode], hspec, by rw [hcode, hspec]; decide⟩

/-- C2 as amended: for every decoded image exceeding a bound, the output
dimensions are `ratio = min(max_width/width, max_height/height)` applied
uniformly to both dimensions and **truncated toward zero** (Python
`int()`), and both results fit within the configured bounds. -/
theorem c2_size_normalization_truncates (cfg : ImageServiceConfig)
    (img : PImage) (hw : 0 < img.width) (hh : 0 < img.height)
    (hover : cfg.max_width < img.width ∨ cfg.max_height < img.height) :
    (optimize_image cfg img).width =
      (pyInt ((img.width : ℚ) *
        min ((cfg.max_width : ℚ) / (img.width : ℚ))
          ((cfg.max_height : ℚ) / (img.height : ℚ)))).toNat ∧
    (optimize_image cfg img).height =
      (pyInt ((img.height : ℚ) *
        min ((cfg.max_width : ℚ) / (img.width : ℚ))
          ((cfg.max_height : ℚ) / (img.height : ℚ)))).toNat ∧
    (optimize_image cfg img).width ≤ cfg.max_width ∧
    (optimize_image cfg img).height ≤ cfg.max_height := by
  have hmw := modeNormalize_width img
  have hmh := modeNormalize_height img
  have hr0 : (0 : ℚ) ≤
      min ((cfg.max_width : ℚ) / (img.width : ℚ))
        ((cfg.max_height : ℚ) / (img.height : ℚ)) :=
    le_min (by positivity) (by positivity)
  have hout : optimize_image cfg img =
      { modeNormalize img with
        width := (pyInt ((img.width : ℚ) *
          min ((cfg.max_width : ℚ) / (img.width : ℚ))
            ((cfg.max_height : ℚ) / (img.height : ℚ)))).toNat
        height := (pyInt ((img.height : ℚ) *
          min ((cfg.max_width : ℚ) / (img.width : ℚ))
            ((cfg.max_height : ℚ) / (img.height : ℚ)))).toNat } := by
    rw [optimize_image, sizeNormalize, hmw, hmh, if_pos (by omega)]
  refine ⟨by rw [hout], by rw [hout], ?_, ?_⟩
  · rw [hout]
    exact pyInt_ratio_le img.width cfg.max_width _ hw hr0 (min_le_left _ _)
  · rw [hout]
    exact pyInt_ratio_le img.height cfg.max_height _ hh hr0 (min_le_right _ _)

/-- Compositing a fully transparent pixel over white gives white. -/
theorem compositeOverWhite_zero (p : Pixel) (ha : p.a = 0) :
    compositeOverWhite p = ⟨255, 255, 255, 255⟩ := by
  rcases p with ⟨r, g, b, a⟩
  cases ha
  simp only [compositeOverWhite]
  rw [pilBlend_zero 255 r (by norm_num), pilBlend_zero 255 g (by norm_num),
    pilBlend_zero 255 b (by norm_num)]

/-- Compositing a fully opaque pixel over white keeps its color. -/
theorem compositeOverWhite_full (p : Pixel) (ha : p.a = 255)
    (hr : p.r ≤ 255) (hg : p.g ≤ 255) (hb : p.b ≤ 255) :
    compositeOverWhite p = ⟨p.r, p.g, p.b, 255⟩ := by
  rcases p with ⟨r, g, b, a⟩
  cases ha
  simp only [compositeOverWhite]
  rw [pilBlend_full 255 r hr, pilBlend_full 255 g hg, pilBlend_full 255 b hb]

/-- Mode normalization of an `RGBA` image composites every pixel over
white through its alpha mask. -/
theorem modeNormalize_px_rgba (img : PImage) (h : img.mode = PMode.RGBA) :
    (modeNormalize img).px = fun x y => compositeOverWhite (img.px x y) := by
  rw [modeNormalize, if_pos (Or.inl h), if_pos h]
  rfl

/-- Mode normalization of a palette image with a transparency key promotes
it to `RGBA` and composites every pixel over white through its alpha
mask. -/
theorem modeNormalize_px_ptrans (img : PImage) (h : img.mode = PMode.P)
    (ht : img.hasTransparencyInfo = true) :
    (modeNormalize img).px = fun x y => compositeOverWhite (img.px x y) := by
  rw [modeNormalize, if_pos (Or.inr (Or.inr h)), if_neg (by simp [h]),
    if_pos ⟨h, ht⟩]
  rfl

/-- Mode normalization of an `LA` image pastes it without a mask: each
pixel keeps its color channels at full opacity, its alpha is ignored. -/
theorem modeNormalize_px_la (img : PImage) (h : img.mode = PMode.LA) :
    (modeNormalize img).px =
      fun x y => ⟨(img.px x y).r, (img.px x y).g, (img.px x y).b, 255⟩ := by
  rw [modeNormalize, if_pos (Or.inr (Or.inl h)), if_neg (by simp [h]),
    if_neg (by simp [h])]
  rfl

/-- Within the size bounds, `optimize_image` leaves the pixel function of
the mode-normalized image untouched. -/
theorem optimize_px_within (cfg : ImageServiceConfig) (img : PImage)
    (hW : img.width ≤ cfg.max_width) (hH : img.height ≤ cfg.max_height) :
    (optimize_image cfg img).px = (modeNormalize img).px := by
  rw [optimize_image, sizeNormalize_within cfg (modeNormalize img)
    (by rw [modeNormalize_width]; exact hW)
    (by rw [modeNormalize_height]; exact hH)]

/-! ### Claim C3 — mode flattening: `LA` alpha is not used as a mask -/

/-- C3 counterexample: a 1×1 `LA` image whose only pixel is fully
transparent.  The claim (and spec) say every alpha-bearing mode is
composited over white via its alpha mask, which would give a white pixel;
the code's `else` branch pastes `LA` images without a mask, so the pixel
comes out opaque black. -/
theorem c3_la_counterexample :
    (optimize_image defaultConfig laImage).px 0 0 = ⟨0, 0, 0, 255⟩ ∧
    (specFlatten laImage).px 0 0 = ⟨255, 255, 255, 255⟩ ∧
    (optimize_image defaultConfig laImage).px 0 0 ≠
      (specFlatten laImage).px 0 0 := by
  refine ⟨?_, ?_, ?_⟩ <;> decide

/-- C3 as amended: the normalized output never carries an alpha channel
(its mode is always RGB); within the size bounds, `RGBA` images and
palette images with a transparency key are composited over an opaque
white background via their alpha mask (fully transparent pixels become
white, fully opaque pixels keep their color), while `LA` images — despite
carrying an alpha channel — are pasted without a mask: their color
channels are kept at full opacity and their alpha is ignored. -/
theorem c3_mode_flattening (cfg : ImageServiceConfig) :
    (∀ img : PImage, (optimize_image cfg img).mode = PMode.RGB) ∧
    (∀ (img : PImage) (x y : ℕ),
      img.width ≤ cfg.max_width → img.height ≤ cfg.max_height →
      (img.px x y).r ≤ 255 → (img.px x y).g ≤ 255 → (img.px x y).b ≤ 255 →
      ((img.mode = PMode.RGBA ∨
          (img.mode = PMode.P ∧ img.hasTransparencyInfo = true)) →
        (optimize_image cfg img).px x y = compositeOverWhite (img.px x y) ∧
        ((img.px x y).a = 0 →
          (optimize_image cfg img).px x y = ⟨255, 255, 255, 255⟩) ∧
        ((img.px x y).a = 255 →
          (optimize_image cfg img).px x y =
            ⟨(img.px x y).r, (img.px x y).g, (img.px x y).b, 255⟩)) ∧
      (img.mode = PMode.LA →
        (optimize_image cfg img).px x y =
          ⟨(img.px x y).r, (img.px x y).g, (img.px x y).b, 255⟩)) := by
  refine ⟨fun img => optimize_mode_rgb cfg img, ?_⟩
  intro img x y hW hH hr hg hb
  have hpx := optimize_px_within cfg img hW hH
  constructor
  · intro hmode
    have hcomp : (modeNormalize img).px =
        fun x y => compositeOverWhite (img.px x y) := by
      rcases hmode with h | ⟨h, ht⟩
      · exact modeNormalize_px_rgba img h
      · exact modeNormalize_px_ptrans img h ht
    refine ⟨by rw [hpx, hcomp], ?_, ?_⟩
    · intro ha
      rw [hpx, hcomp]
      exact compositeOverWhite_zero _ ha
    · intro ha
      rw [hpx, hcomp]
      exact compositeOverWhite_full _ ha hr hg hb
  · intro h
    rw [hpx, modeNormalize_px_la img h]

/-- Witness for the amended C3 on a concrete 2×2 RGBA image: the fully
transparent pixel at the origin becomes white, the opaque red pixel next
to it keeps its color. -/
theorem c3_mode_flattening_witness :
    (optimize_image defaultConfig rgbaImage).px 0 0 = ⟨255, 255, 255, 255⟩ ∧
    (optimize_image defaultConfig rgbaImage).px 1 0 = ⟨200, 0, 0, 255⟩ := by
  have h := (c3_mode_flattening defaultConfig).2 rgbaImage
  refine ⟨((h 0 0 (by decide) (by decide) (by decide) (by decide) (by decide)).1
      (Or.inl rfl)).2.1 (by decide), ?_⟩
  have h2 := ((h 1 0 (by decide) (by decide) (by decide) (by decide)
      (by decide)).1 (Or.inl rfl)).2.2 (by decide)
  rw [h2]
  decide

/-! ### Helper lemmas about document construction -/

/-- A successfully constructed `Document` is exactly the record handed to
the constructor, and its page count matched. -/
theorem mkDocument_ok {id title fp : String} {np : ℤ} {pages : List Page}
    {st : DocumentStatus} {md : List (String × String)} {d : Document}
    (h : mkDocument id title fp np pages st md = Except.ok d) :
    d = ⟨id, title, fp, np, pages, st, md⟩ ∧ (pages.length : ℤ) = np := by
  unfold mkDocument at h
  split_ifs at h with hb hn hp
  exact ⟨(Except.ok.inj h).symm, not_not.mp hp⟩

/-- Every digit character produced by `digitChar` below 10 is a digit. -/
theorem digitChar_isDigit : ∀ k < 10, (digitChar k).isDigit = true := by
  decide

/-- The fuel-based decimal rendering is nonempty and all digits. -/
theorem decDigitsAux_digits : ∀ (fuel n : ℕ), n < fuel →
    decDigitsAux fuel n ≠ [] ∧
      ∀ c ∈ decDigitsAux fuel n, c.isDigit = true := by
  intro fuel
  induction fuel with
  | zero => intro n h; omega
  | succ fuel ih =>
    intro n h
    rw [decDigitsAux]
    split_ifs with h10
    · refine ⟨by simp, ?_⟩
      intro c hc
      simp only [List.mem_cons, List.not_mem_nil, or_false] at hc
      subst hc
      exact digitChar_isDigit n h10
    · have hrec := ih (n / 10) (by omega)
      refine ⟨by simp, ?_⟩
      intro c hc
      rcases List.mem_append.mp hc with hm | hm
      · exact hrec.2 c hm
      · simp only [List.mem_cons, List.not_mem_nil, or_false] at hm
        subst hm
        exact digitChar_isDigit (n % 10) (by omega)

/-- A string containing a path separator is never blank. -/
theorem isBlank_slash (a b : String) : isBlank (a ++ "/" ++ b) = false := by
  have hmem : '/' ∈ (a ++ "/" ++ b).data := by
    rw [String.data_append, String.data_append]
    exact List.mem_append.mpr (Or.inl (List.mem_append.mpr (Or.inr (by decide))))
  unfold isBlank
  rcases hall : (a ++ "/" ++ b).data.all isSpaceChar with _ | _
  · rfl
  · exact absurd (List.all_eq_true.mp hall '/' hmem) (by decide)

/-! ### Claim C6 — thumbnail failure is non-fatal -/

/-- C6: whenever the main artifact save succeeds (and the request is
otherwise healthy: the validated original file exists, is a non-empty
regular file of supported extension, the decoded image has positive
in-bounds dimensions, and the derived title is non-blank), a thumbnail
failure (`thumbOk := false`, covering any exception inside
`create_thumbnail`'s try block) still yields a completed `Document`
whose single page has `thumbnail_path = none`. -/
theorem c6_thumbnail_failure_nonfatal
    (cfg : ImageServiceConfig) (file_path : String) (workspace : Option String)
    (output_format : Option String) (document_id : Option String)
    (fi : FileInfo) (img : PImage) (env : SaveEnv) (now : ℕ) (nowStr : String)
    (hpath : file_path ≠ "")
    (hfe : fi.fileExists = true) (hisf : fi.isFile = true)
    (hfs : fi.fileSize ≠ 0)
    (hsup : is_supported_format cfg file_path = true)
    (hw : 0 < img.width) (hh : 0 < img.height)
    (hbw : img.width ≤ cfg.max_width) (hbh : img.height ≤ cfg.max_height)
    (hsave : env.writeOk = true)
    (htitle : isBlank (pathName file_path) = false) :
    ∃ d : Document,
      process_sync cfg file_path workspace output_format document_id fi
          (Except.ok img) { env with thumbOk := false } now nowStr =
        Except.ok d ∧
      d.status = DocumentStatus.completed ∧
      d.pages.map Page.thumbnail_path = [none] := by
  have hval : validate_file cfg file_path fi = Except.ok () := by
    simp [validate_file, hpath, hfe, hisf, hfs, hsup]
  have hod := optimize_dims_within cfg img hbw hbh
  have hsavei : save_image cfg file_path fi workspace
      (resolveFormat cfg output_format) { env with thumbOk := false } =
      Except.ok (get_image_store_path cfg workspace ++ "/" ++
        generate_filename file_path fi.fileExists fi.mtime
          (resolveFormat cfg output_format), env.savedBytes) := by
    simp [save_image, hsave]
  have hthumb : ∀ nm : String, (if cfg.enable_thumbnails then
      create_thumbnail cfg nm workspace { env with thumbOk := false }
      else none) = none := by
    intro nm
    by_cases hth : cfg.enable_thumbnails <;> simp [create_thumbnail, hth]
  have hwz : ¬((img.width : ℤ) ≤ 0) := by omega
  have hhz : ¬((img.height : ℤ) ≤ 0) := by omega
  have hfz : ¬((fi.fileSize : ℤ) ≤ 0) := by omega
  have hmeta : create_image_metadata cfg img fi
      (some ((optimize_image cfg img).width, (optimize_image cfg img).height)) =
      Except.ok ⟨(img.width : ℤ), (img.height : ℤ), img.mode.str,
        img.decodeFormat.getD "Unknown", (fi.fileSize : ℤ),
        check_transparency img, extract_exif_data cfg img⟩ := by
    simp [create_image_metadata, extract_basic_metadata, mkImageMetadata,
      hod.1, hod.2, hfe, hwz, hhz, hfz]
  have hblank : isBlank (get_image_store_path cfg workspace ++ "/" ++
      generate_filename file_path fi.fileExists fi.mtime
        (resolveFormat cfg output_format)) = false :=
    isBlank_slash _ _
  set pg : Page := ⟨1, none, get_image_store_path cfg workspace ++ "/" ++
      generate_filename file_path fi.fileExists fi.mtime
        (resolveFormat cfg output_format), none,
    ⟨(img.width : ℤ), (img.height : ℤ), img.mode.str,
      img.decodeFormat.getD "Unknown", (env.savedBytes : ℤ),
      check_transparency img, extract_exif_data cfg img⟩, none, none⟩
    with hpgdef
  have hpg : process_image_sync cfg file_path workspace output_format fi
      (Except.ok img) { env with thumbOk := false } =
      Except.ok (pg, get_image_store_path cfg workspace ++ "/" ++
          generate_filename file_path fi.fileExists fi.mtime
            (resolveFormat cfg output_format), none) := by
    rw [hpgdef]
    simp only [process_image_sync, bind, Except.bind, hsavei, hthumb, hmeta,
      mkPage, hblank, pure, Except.pure]
    norm_num
  have hcd : create_document pg file_path document_id now nowStr =
      Except.ok (update_page_references
        ⟨documentIdOr document_id now, pathName file_path, pg.image_path, 1,
          [pg], DocumentStatus.completed,
          [("original_file", file_path), ("processor", "ImageProcessor"),
           ("created_at", nowStr),
           ("file_size", intRepr pg.metadata.file_size),
           ("image_format", pg.metadata.format),
           ("dimensions", intRepr pg.metadata.width ++ "x" ++
             intRepr pg.metadata.height)]⟩) := by
    unfold create_document
    dsimp only
    rw [mkDocument, if_neg (by simp [htitle]), if_neg (by norm_num),
      if_neg (by norm_num)]
  refine ⟨update_page_references
      ⟨documentIdOr document_id now, pathName file_path, pg.image_path, 1,
        [pg], DocumentStatus.completed,
        [("original_file", file_path), ("processor", "ImageProcessor"),
         ("created_at", nowStr),
         ("file_size", intRepr pg.metadata.file_size),
         ("image_format", pg.metadata.format),
         ("dimensions", intRepr pg.metadata.width ++ "x" ++
           intRepr pg.metadata.height)]⟩, ?_, rfl, rfl⟩
  simp only [process_sync, bind, Except.bind, hval, hpg, hcd]

/-- Witness for C6 on a concrete healthy request whose thumbnail write
fails. -/
theorem c6_thumbnail_failure_witness :
    ∃ d : Document,
      process_sync defaultConfig "photos/cat.png" none none none okFile
          (Except.ok smallImage) { okSave with thumbOk := false } 1700000001
          "2023-11-14T22:13:21" = Except.ok d ∧
      d.status = DocumentStatus.completed ∧
      d.pages.map Page.thumbnail_path = [none] :=
  c6_thumbnail_failure_nonfatal defaultConfig "photos/cat.png" none none none
    okFile smallImage okSave 1700000001 "2023-11-14T22:13:21"
    (by decide) rfl rfl (by decide) (by decide) (by decide) (by decide)
    (by decide) (by decide) rfl (by decide)

/-! ### Claim C8 — `num_pages` invariant -/

/-- C8: pydantic's `validate_pages_count` makes `num_pages = len(pages)`
hold for every successfully constructed `Document`, and every document
the orchestrator's `create_document` returns has exactly one page and
`num_pages = 1`. -/
theorem c8_num_pages_invariant :
    (∀ (id title fp : String) (np : ℤ) (pages : List Page)
        (st : DocumentStatus) (md : List (String × String)) (d : Document),
      mkDocument id title fp np pages st md = Except.ok d →
        (d.pages.length : ℤ) = d.num_pages) ∧
    (∀ (page : Page) (path : String) (did : Option String) (now : ℕ)
        (nowStr : String) (d : Document),
      create_document page path did now nowStr = Except.ok d →
        d.num_pages = 1 ∧ d.pages.length = 1) := by
  constructor
  · intro id title fp np pages st md d h
    obtain ⟨rfl, hlen⟩ := mkDocument_ok h
    exact hlen
  · intro page path did now nowStr d h
    unfold create_document at h
    dsimp only at h
    split at h
    case _ doc hmk =>
      cases h
      obtain ⟨rfl, -⟩ := mkDocument_ok hmk
      exact ⟨rfl, rfl⟩
    case _ e hmk =>
      simp at h

/-- Witness for C8 at a concrete page: the returned document has one
page and `num_pages = 1`. -/
theorem c8_num_pages_witness :
    ∃ d, create_document witnessPage "photos/cat.png" none 5 "ts" =
        Except.ok d ∧ d.num_pages = 1 ∧ d.pages.length = 1 := by
  refine ⟨_, rfl, ?_⟩
  exact (c8_num_pages_invariant).2 witnessPage "photos/cat.png" none 5 "ts" _ rfl

/-! ### Claim C9 — generated document ids -/

/-- Modelled from the spec: the claim's shape for a generated document id
— `"doc_"` followed by a nonempty token of (random) hex characters.
Used only to compare against the orchestrator's actual
`doc_img_<unix-timestamp>` scheme. -/
def isClaimDocId (s : String) : Prop :=
  ∃ tok : List Char, s.data = "doc_".data ++ tok ∧ tok ≠ [] ∧
    ∀ c ∈ tok, isHexChar c = true

/-- C9 counterexample: at `int(time.time()) = 1700000000` the generated
id is `doc_img_1700000000`, which is not `"doc_"` followed by a hex
token — the character right after `doc_` is `i`. -/
theorem c9_generated_id_counterexample :
    documentIdOr none 1700000000 = "doc_img_1700000000" ∧
    ¬isClaimDocId (documentIdOr none 1700000000) := by
  have hgen : documentIdOr none 1700000000 = "doc_img_1700000000" := rfl
  refine ⟨hgen, ?_⟩
  rintro ⟨tok, heq, -, hhex⟩
  rw [hgen, show ("doc_img_1700000000" : String) = "doc_" ++ "img_1700000000"
    from rfl, String.data_append] at heq
  have htok : ("img_1700000000" : String).data = tok :=
    List.append_cancel_left heq
  have hi : isHexChar 'i' = true :=
    hhex 'i' (htok ▸ (by decide : 'i' ∈ ("img_1700000000" : String).data))
  exact absurd hi (by decide)

/-- C9 as amended: a caller-supplied non-empty id is used verbatim; when
the caller supplies none (or the empty string, which Python's `or`
treats the same), the orchestrator generates `doc_img_` followed by the
decimal digits of the integer Unix timestamp — a time-derived token, not
a random-hex one — and the returned document carries exactly the id so
chosen. -/
theorem c9_document_id_assignment (document_id : Option String) (now : ℕ) :
    (∀ s, document_id = some s → s ≠ "" →
      documentIdOr document_id now = s) ∧
    (document_id = none ∨ document_id = some "" →
      ∃ ds : List Char,
        (documentIdOr document_id now).data = "doc_img_".data ++ ds ∧
        ds ≠ [] ∧ ∀ c ∈ ds, c.isDigit = true) ∧
    (∀ (page : Page) (path nowStr : String) (d : Document),
      create_document page path document_id now nowStr = Except.ok d →
        d.id = documentIdOr document_id now) := by
  refine ⟨?_, ?_, ?_⟩
  · intro s h hne
    subst h
    simp [documentIdOr, hne]
  · intro h
    have hgen : documentIdOr document_id now = "doc_img_" ++ decRepr now := by
      rcases h with h | h <;> subst h <;> simp [documentIdOr]
    have hdig := decDigitsAux_digits (now + 1) now (by omega)
    exact ⟨(decRepr now).data, by rw [hgen, String.data_append], hdig.1, hdig.2⟩
  · intro page path nowStr d h
    unfold create_document at h
    dsimp only at h
    split at h
    case _ doc hmk =>
      cases h
      obtain ⟨rfl, -⟩ := mkDocument_ok hmk
      rfl
    case _ e hmk =>
      simp at h

/-- Witness for the amended C9: with no caller id and `now = 5` the id is
`doc_img_` plus decimal digits. -/
theorem c9_document_id_witness :
    ∃ ds : List Char, (documentIdOr none 5).data = "doc_img_".data ++ ds ∧
      ds ≠ [] ∧ ∀ c ∈ ds, c.isDigit = true :=
  (c9_document_id_assignment none 5).2.1 (Or.inl rfl)

/-! ### Claim C1 — the metadata fallback itself fails validation -/

/-- C1 (code bug): when metadata extraction fails — here triggered by a
source path that no longer exists, so `extract_basic_metadata` reports
`file_size = 0` and the pydantic validator raises — the `except` block's
"minimal metadata" fallback constructs `ImageMetadata` with
`file_size=0`, which `validate_positive` rejects as well, so
`create_image_metadata` raises instead of returning a minimal value and
the failure is fatal to the pipeline call. -/
theorem c1_metadata_fallback_raises (cfg : ImageServiceConfig) (img : PImage)
    (fi : FileInfo) (ps : Option (ℕ × ℕ)) (h : fi.fileExists = false) :
    ∃ e, create_image_metadata cfg img fi ps = Except.error e := by
  rcases ps with _ | ⟨w, ht⟩ <;>
    simp only [create_image_metadata, extract_basic_metadata, mkImageMetadata,
      h, Bool.false_eq_true, if_false] <;>
    split_ifs <;>
    simp_all

/-- Witness for C1 at a concrete nonexistent file. -/
theorem c1_metadata_fallback_witness :
    ({ fileExists := false, isFile := false, fileSize := 0, mtime := "" } :
        FileInfo).fileExists = false ∧
    ∃ e, create_image_metadata defaultConfig smallImage
        ⟨false, false, 0, ""⟩ (some (500, 400)) = Except.error e :=
  ⟨rfl, c1_metadata_fallback_raises defaultConfig smallImage
    ⟨false, false, 0, ""⟩ (some (500, 400)) rfl⟩

/-! ### Claim C5 — output-format validation rejects the "jpg" alias -/

/-- Modelled from the spec: the set of output formats the spec declares
supported — `webp`, `jpeg` and its alias `jpg`.  Used only to compare
against the API's actual check, which accepts `["webp", "jpeg"]`. -/
def claimSupportedOutputFormats : List String := ["webp", "jpeg", "jpg"]

/-- C5 counterexample: `"jpg"` is in the claim's supported-alias set, yet
the endpoint rejects it with the 400 invalid-format error (its membership
test is `output_format not in ["webp", "jpeg"]`), never invoking the
pipeline. -/
theorem c5_jpg_rejected_counterexample :
    claimSupportedOutputFormats.contains "jpg" = true ∧
    api_process_image (fun _ => Except.ok (0 : ℕ)) "photo.png" none "jpg" =
      Except.error (ApiError.badRequest
        "Invalid output format. Supported: webp, jpeg") :=
  ⟨rfl, rfl⟩

/-- C5 as amended: any requested output format other than exactly "webp"
or "jpeg" — including the "jpg" alias — is rejected by the endpoint
before any processing begins: the result is an error and is independent
of the processing pipeline entirely. -/
theorem c5_invalid_format_rejected {α : Type} (p q : Unit → Except String α)
    (filename : String) (sz : Option ℕ) (fmt : String)
    (h1 : fmt ≠ "webp") (h2 : fmt ≠ "jpeg") :
    api_process_image p filename sz fmt = api_process_image q filename sz fmt ∧
    ∃ e, api_process_image p filename sz fmt = Except.error e := by
  constructor
  · unfold api_process_image
    split_ifs <;> first | rfl | tauto
  · unfold api_process_image
    split_ifs <;> first | exact ⟨_, rfl⟩ | tauto

/-- Witness for the amended C5 at the concrete format "png": two
different pipelines are never consulted and the request errors. -/
theorem c5_invalid_format_witness :
    api_process_image (fun _ => Except.ok (1 : ℕ)) "a.png" none "png" =
      api_process_image (fun _ => Except.ok 2) "a.png" none "png" ∧
    ∃ e, api_process_image (fun _ => Except.ok (1 : ℕ)) "a.png" none "png" =
      Except.error e :=
  c5_invalid_format_rejected (fun _ => Except.ok 1) (fun _ => Except.ok 2)
    "a.png" none "png" (by decide) (by decide)

/-- Witness for the amended C2 on the concrete 8192×4103 image. -/
theorem c2_size_normalization_witness :
    0 < wideImage.width ∧ 0 < wideImage.height ∧
    (defaultConfig.max_width < wideImage.width ∨
      defaultConfig.max_height < wideImage.height) ∧
    ((optimize_image defaultConfig wideImage).width ≤
        defaultConfig.max_width ∧
      (optimize_image defaultConfig wideImage).height ≤
        defaultConfig.max_height) :=
  ⟨by decide, by decide, by decide,
    (c2_size_normalization_truncates defaultConfig wideImage (by decide)
      (by decide) (by decide)).2.2⟩

end ImageService
